import Mathlib

/-!
Verification development for the Aven AI customer-support repository.

The frontend (Next.js/TypeScript) sources are embedded directly from the
files under `frontend/src`.  The backend pipeline core (GuardrailsEngine,
QueryAnalyzer, RetrievalOrchestrator, ResponseSynthesizer,
SessionCoordinator) is not present in the repository surface; those
components are modelled from the specification, as noted on each
definition.
-/

/-! ### String utilities

Executable substring matching used by keyword lexicons, standing in for
the regex/lexical detectors of the source system. -/

/-- `charsHavePrefix pat s` : `pat` occurs at the head of `s`. -/
def charsHavePrefix : List Char → List Char → Bool
  | [], _ => true
  | _ :: _, [] => false
  | a :: as, b :: bs => a == b && charsHavePrefix as bs

/-- `charsContain pat s` : `pat` occurs somewhere inside `s`. -/
def charsContain (pat : List Char) : List Char → Bool
  | [] => pat.isEmpty
  | s@(_ :: rest) => charsHavePrefix pat s || charsContain pat rest

/-- `containsSubstring s pat` : `pat` occurs inside `s`. -/
def containsSubstring (s pat : String) : Bool :=
  charsContain pat.data s.data

example : containsSubstring "what is the latest rate" "latest" = true := by decide
example : containsSubstring "hello" "latest" = false := by decide

/-! ### Frontend chat store (from `frontend/src/store/chatStore.ts`) -/

namespace Frontend

/-- Message role, from the `role: 'user' | 'assistant'` union in
`chatStore.ts`. -/
inductive Role where
  | user
  | assistant
deriving DecidableEq, Repr

/-- Message status, from the `status: 'sending' | 'sent' | 'error'` union in
`chatStore.ts`. -/
inductive Status where
  | sending
  | sent
  | error
deriving DecidableEq, Repr

/-- The `Message` interface of `chatStore.ts`: `{id, content, role,
timestamp, status, isVoiceMessage?}`. -/
structure Message where
  id : String
  content : String
  role : Role
  timestamp : String
  status : Status
  isVoiceMessage : Option Bool
deriving DecidableEq, Repr

/-- A `Partial<Message>` as used by `updateMessage(id, updates)`: every
field optional, `none` meaning the key is absent from the updates
object. -/
structure MessageUpdate where
  id : Option String := none
  content : Option String := none
  role : Option Role := none
  timestamp : Option String := none
  status : Option Status := none
  isVoiceMessage : Option (Option Bool) := none
deriving DecidableEq, Repr

/-- The JavaScript spread `{...msg, ...updates}`: keys present in
`updates` override those of `msg`. -/
def mergeMessage (m : Message) (u : MessageUpdate) : Message where
  id := u.id.getD m.id
  content := u.content.getD m.content
  role := u.role.getD m.role
  timestamp := u.timestamp.getD m.timestamp
  status := u.status.getD m.status
  isVoiceMessage := u.isVoiceMessage.getD m.isVoiceMessage

/-- The `ChatState` of the zustand store in `chatStore.ts`. -/
structure ChatState where
  messages : List Message
  isLoading : Bool
  sessionId : Option String
  error : Option String
  vapiConnected : Bool
  vapiCallId : Option String
deriving DecidableEq, Repr

/-- `addMessage` action: appends the message to `state.messages`. -/
def addMessage (s : ChatState) (m : Message) : ChatState :=
  { s with messages := s.messages ++ [m] }

/-- `updateMessage(id, updates)` action: maps over `state.messages`,
replacing each message whose id equals `id` by its merge with
`updates`. -/
def updateMessage (s : ChatState) (id : String) (u : MessageUpdate) : ChatState :=
  { s with messages := s.messages.map fun msg =>
      if msg.id = id then mergeMessage msg u else msg }

/-- `setError` action. -/
def setError (s : ChatState) (e : Option String) : ChatState :=
  { s with error := e }

/-- `clearError` action. -/
def clearError (s : ChatState) : ChatState :=
  { s with error := none }

/-- `clearMessages` action. -/
def clearMessages (s : ChatState) : ChatState :=
  { s with messages := [] }

/-- Outcome of `apiClient.sendTextMessage(content)` as observed by
`sendMessage`: either the awaited call throws (network/HTTP error), or it
resolves and `response.response.answer` is read — `none` standing for a
missing/empty answer (a JS-falsy value). -/
inductive BackendOutcome where
  | fail
  | ok (answer : Option String)
deriving DecidableEq, Repr

/-- JavaScript `a || d` on an optional string: `undefined`, `null` and
`""` are falsy, so they yield the default. -/
def jsOr (a : Option String) (d : String) : String :=
  match a with
  | none => d
  | some s => if s = "" then d else s

/-- Fallback assistant text in `chatStore.ts` line 70. -/
def noAnswerFallback : String := "I'm sorry, I couldn't process your message."

/-- Store error text in `chatStore.ts` line 81. -/
def sendFailureError : String := "Failed to send message. Please try again."

/-- `sendMessage(content)` of `chatStore.ts` (lines 45–83), with the
nondeterministic inputs made explicit: `uid`/`uts` are the id and
timestamp of the user message, `aid`/`ats` those of the assistant
message, and `outcome` is the backend call's result.  The body appends
the user message with status `sending`, clears the error, then on
success marks it `sent` and appends the assistant message (falling back
to `noAnswerFallback` when the answer is falsy); on failure marks it
`error` and sets the store error. -/
def sendMessage (s : ChatState) (content uid uts aid ats : String)
    (outcome : BackendOutcome) : ChatState :=
  let userMessage : Message :=
    { id := uid, content := content, role := .user, timestamp := uts,
      status := .sending, isVoiceMessage := none }
  let s1 := clearError (addMessage s userMessage)
  match outcome with
  | .ok answer =>
      let s2 := updateMessage s1 uid { status := some .sent }
      let assistantMessage : Message :=
        { id := aid, content := jsOr answer noAnswerFallback, role := .assistant,
          timestamp := ats, status := .sent, isVoiceMessage := none }
      addMessage s2 assistantMessage
  | .fail =>
      let s2 := updateMessage s1 uid { status := some .error }
      setError s2 (some sendFailureError)

/-! ### Frontend API shapes (from `frontend/src/types/chat.ts` and the
`ApiClient`). -/

/-- Field names of the JSON body built by `ApiClient.sendMessage` for
`POST /api/chat/text`: `{message, session_id, include_sources}`. -/
def chatTextRequestFields : List String :=
  ["message", "session_id", "include_sources"]

/-- Field names of the `ChatResponse` interface in
`frontend/src/types/chat.ts` (lines 21–29); `tokens_used` is optional. -/
def chatResponseFields : List String :=
  ["message", "sources", "confidence", "session_id", "timestamp",
   "processing_time", "tokens_used"]

end Frontend

/-! ### Backend pipeline core

The backend pipeline components named by the specification
(GuardrailsEngine, QueryAnalyzer, RetrievalOrchestrator,
ResponseSynthesizer, SessionCoordinator) are not present in the
repository surface — only their planning documents and callers are — so
they are modelled here from the specification's component design (§3–§5
of the spec). -/

namespace Core

/-- Modelled from the spec: guardrail verdict category,
`{none, pii, financial_advice, brand_unsafe, toxic}` (spec §3,
GuardrailVerdict). -/
inductive GuardCategory where
  | none
  | pii
  | financial_advice
  | brandUnsafe
  | toxic
deriving DecidableEq, Repr

/-- Modelled from the spec: verdict severity. -/
inductive Severity where
  | none
  | low
  | high
deriving DecidableEq, Repr

/-- Modelled from the spec: one configuration-loaded guardrail rule of the
GuardrailsEngine (§4.1): a lexical detector with a category and a match
confidence in `[0,1]`. -/
structure GuardRule where
  id : String
  category : GuardCategory
  matchesText : String → Bool
  confidence : ℚ

/-- Modelled from the spec: GuardrailVerdict `{allowed, category,
matched_rule, severity}` (§3). -/
structure GuardrailVerdict where
  allowed : Bool
  category : GuardCategory
  matched_rule : Option String
  severity : Severity
deriving DecidableEq, Repr

/-- Modelled from the spec: QueryIntent category
`{blocked, scheduling, realtime_info, general_info}` (§3). -/
inductive IntentCategory where
  | blocked
  | scheduling
  | realtime_info
  | general_info
deriving DecidableEq, Repr

/-- Modelled from the spec: QueryIntent `{category, requires_live_search,
entities}` (§3); entities are (type, value) pairs. -/
structure QueryIntent where
  category : IntentCategory
  requires_live_search : Bool
  entities : List (String × String)
deriving DecidableEq, Repr

/-- Modelled from the spec: utterance channel. -/
inductive Channel where
  | text
  | voice
deriving DecidableEq, Repr

/-- Modelled from the spec: Utterance `{session_id, channel, raw_text}`
(§3; `received_at` is wall-clock and not modelled). -/
structure Utterance where
  session_id : String
  channel : Channel
  raw_text : String
deriving DecidableEq, Repr

/-- Modelled from the spec: the explicit configuration object of §9,
holding the guardrail rule set and threshold (§4.1), the analyzer policy
knobs (§4.2), and the retrieval knobs (§4.3). -/
structure Config where
  rules : List GuardRule
  soft_threshold : ℚ
  recency_keywords : List String
  scheduling_keywords : List String
  stable_topics : List String
  product_lexicon : List String
  top_k : Nat
  confidence_floor : ℚ
  min_passages : Nat
  token_budget : Nat

/-- Modelled from the spec: first configured rule of category `c` matching
`text`. -/
def findMatch (cfg : Config) (text : String) (c : GuardCategory) : Option GuardRule :=
  cfg.rules.find? fun r => r.category == c && r.matchesText text

/-- Modelled from the spec: first configured soft rule
(financial-advice-adjacent phrasing) matching `text` with confidence at
or above the configured threshold (§4.1: below the threshold a match is
informational only). -/
def findSoftMatch (cfg : Config) (text : String) : Option GuardRule :=
  cfg.rules.find? fun r =>
    r.category == GuardCategory.financial_advice && r.matchesText text
      && decide (cfg.soft_threshold ≤ r.confidence)

/-- Modelled from the spec: `GuardrailsEngine.validate_input` (§4.1).
Hard-block categories fail closed — any match yields `allowed := false`
— with PII detectors checked first (the order the spec lists them),
then toxic and brand-unsafe; soft financial-advice matches above the
threshold fail open with `severity := low`. -/
def validate_input (cfg : Config) (text : String) : GuardrailVerdict :=
  match findMatch cfg text .pii with
  | some r => { allowed := false, category := .pii, matched_rule := some r.id, severity := .high }
  | Option.none =>
  match findMatch cfg text .toxic with
  | some r => { allowed := false, category := .toxic, matched_rule := some r.id, severity := .high }
  | Option.none =>
  match findMatch cfg text .brandUnsafe with
  | some r => { allowed := false, category := .brandUnsafe, matched_rule := some r.id, severity := .high }
  | Option.none =>
  match findSoftMatch cfg text with
  | some r => { allowed := true, category := .financial_advice, matched_rule := some r.id, severity := .low }
  | Option.none => { allowed := true, category := .none, matched_rule := none, severity := .none }

/-- Modelled from the spec: `GuardrailsEngine.validate_output` runs the
same rule set against the generated answer (§4.1). -/
def validate_output (cfg : Config) (text : String) : GuardrailVerdict :=
  validate_input cfg text

/-- Modelled from the spec: the safe, category-specific user message a
guardrail block short-circuits with (§4.1). -/
def safeMessage : GuardCategory → String
  | .pii => "For your safety, please do not share personal identifying information."
  | .toxic => "I can't help with that request."
  | .brandUnsafe => "I'm not able to discuss that topic."
  | .financial_advice => "I can share product information, but not personalized financial advice."
  | .none => "I'm sorry, I can't process that message."

/-- Modelled from the spec: keyword containment against a configured
lexicon. -/
def matchesLexicon (kws : List String) (text : String) : Bool :=
  kws.any fun kw => containsSubstring text kw

/-- Modelled from the spec: lightweight entity extraction (§4.2) —
product names found in the text via the configured lexicon. -/
def extractEntities (cfg : Config) (text : String) : List (String × String) :=
  (cfg.product_lexicon.filter fun p => containsSubstring text p).map
    fun p => ("product", p)

/-- Modelled from the spec: `QueryAnalyzer.classify` (§4.2).  Priority
order `blocked > scheduling > realtime_info > general_info`;
`requires_live_search` is true only for `realtime_info` and for
`general_info` queries with an extracted entity outside the stable-topic
allow-list. -/
def classify (cfg : Config) (u : Utterance) (blockedUpstream : Bool) : QueryIntent :=
  let entities := extractEntities cfg u.raw_text
  if blockedUpstream then
    { category := .blocked, requires_live_search := false, entities := entities }
  else if matchesLexicon cfg.scheduling_keywords u.raw_text then
    { category := .scheduling, requires_live_search := false, entities := entities }
  else if matchesLexicon cfg.recency_keywords u.raw_text then
    { category := .realtime_info, requires_live_search := true, entities := entities }
  else
    { category := .general_info,
      requires_live_search := entities.any fun e => !(cfg.stable_topics.contains e.2),
      entities := entities }

/-- Modelled from the spec: passage origin (§3). -/
inductive Origin where
  | knowledge_base
  | live_search
deriving DecidableEq, Repr

/-- Modelled from the spec: RetrievedPassage `{content, source_url,
relevance_score, origin}` (§3; `retrieved_at` is wall-clock and not
modelled). -/
structure RetrievedPassage where
  content : String
  source_url : String
  relevance_score : ℚ
  origin : Origin
deriving DecidableEq, Repr

/-- Modelled from the spec: token count of a passage, the unit the
configured budget is measured in. -/
def tokensOf (p : RetrievedPassage) : Nat :=
  p.content.length

/-- Modelled from the spec: ComposedContext (§3) — the ordered,
deduplicated passage sequence; `degraded` is the flag marking a context
assembled while a source was unavailable (§4.3 "partial"). -/
structure ComposedContext where
  passages : List RetrievedPassage
  degraded : Bool
deriving DecidableEq, Repr

/-- Descending-relevance order on passages: `a` ranks at or above `b`. -/
def scoreGE (a b : RetrievedPassage) : Prop :=
  b.relevance_score ≤ a.relevance_score

instance : DecidableRel scoreGE := fun a b =>
  inferInstanceAs (Decidable (b.relevance_score ≤ a.relevance_score))

instance : IsTotal RetrievedPassage scoreGE :=
  ⟨fun a b => le_total b.relevance_score a.relevance_score⟩

instance : IsTrans RetrievedPassage scoreGE :=
  ⟨fun _ _ _ hab hbc => le_trans hbc hab⟩

/-- Modelled from the spec: sort passages by descending relevance score
(§4.3 fusion). -/
def sortByScoreDesc (l : List RetrievedPassage) : List RetrievedPassage :=
  l.insertionSort scoreGE

/-- Modelled from the spec: deduplicate by source URL, keeping the first
occurrence (§4.3 fusion: "first occurrence by score wins" on the
descending-sorted list); `seen` accumulates the URLs already kept. -/
def dedupByUrl (seen : List String) : List RetrievedPassage → List RetrievedPassage
  | [] => []
  | p :: ps =>
      if p.source_url ∈ seen then dedupByUrl seen ps
      else p :: dedupByUrl (p.source_url :: seen) ps

/-- Modelled from the spec: truncate to the token budget, keeping the
highest-ranked prefix that fits — lowest-ranked passages are dropped
first (§4.3 fusion). -/
def takeBudget (budget : Nat) : List RetrievedPassage → List RetrievedPassage
  | [] => []
  | p :: ps =>
      if tokensOf p ≤ budget then p :: takeBudget (budget - tokensOf p) ps
      else []

/-- Modelled from the spec: the running token count of a passage list
(§3, ComposedContext). -/
def totalTokens (l : List RetrievedPassage) : Nat :=
  (l.map tokensOf).sum

/-- Modelled from the spec: the fusion step of §4.3 — merge, sort
descending by score, deduplicate by URL (first wins), truncate to the
token budget. -/
def fuse (budget : Nat) (l : List RetrievedPassage) : List RetrievedPassage :=
  takeBudget budget (dedupByUrl [] (sortByScoreDesc l))

/-- Modelled from the spec: a collaborator source call returns passages or
an error/timeout (§4.3). -/
inductive SourceResult where
  | ok (passages : List RetrievedPassage)
  | err
deriving DecidableEq, Repr

/-- Passages carried by a source result (an error contributes none). -/
def passagesOf : SourceResult → List RetrievedPassage
  | .ok l => l
  | .err => []

/-- A source result is an error/timeout. -/
def SourceResult.failed : SourceResult → Bool
  | .ok _ => false
  | .err => true

/-- Modelled from the spec: the external collaborators of §6 — the
knowledge-base query, the live-search fallback, and the
language-generation service (attempt-indexed: `llm n` is the result of
the `n`-th invocation, `none` standing for failure or timeout). -/
structure Collaborators where
  kb : String → SourceResult
  live : String → SourceResult
  llm : Nat → Option String

/-- Modelled from the spec: the top-K knowledge-base candidates for a
query (§4.3). -/
def kbCandidates (cfg : Config) (collab : Collaborators) (query : String) :
    List RetrievedPassage :=
  (passagesOf (collab.kb query)).take cfg.top_k

/-- Modelled from the spec: best knowledge-base score, 0 when empty. -/
def bestScore (l : List RetrievedPassage) : ℚ :=
  (l.map RetrievedPassage.relevance_score).foldr max 0

/-- Modelled from the spec: the live-search trigger of §4.3 — intent
requires live search, or the best knowledge-base score is below the
confidence floor, or fewer than the minimum passage count came back. -/
def needLiveSearch (cfg : Config) (intent : QueryIntent)
    (kbP : List RetrievedPassage) : Bool :=
  intent.requires_live_search
    || decide (bestScore kbP < cfg.confidence_floor)
    || decide (kbP.length < cfg.min_passages)

/-- Modelled from the spec: the live-search candidates actually fetched
(empty when the trigger does not fire). -/
def liveCandidates (cfg : Config) (collab : Collaborators) (query : String)
    (intent : QueryIntent) : List RetrievedPassage :=
  if needLiveSearch cfg intent (kbCandidates cfg collab query) then
    passagesOf (collab.live query)
  else []

/-- Modelled from the spec: `RetrievalOrchestrator.retrieve` (§4.3) —
fuses the knowledge-base and live-search candidates under the token
budget; the context is marked degraded when a consulted source
errored/timed out. -/
def retrieve (cfg : Config) (collab : Collaborators) (query : String)
    (intent : QueryIntent) : ComposedContext :=
  let kbP := kbCandidates cfg collab query
  let liveP := liveCandidates cfg collab query intent
  { passages := fuse cfg.token_budget (kbP ++ liveP)
    degraded := (collab.kb query).failed
      || (needLiveSearch cfg intent kbP && (collab.live query).failed) }

/-- Modelled from the spec: Answer `{message, sources, confidence,
safety_flags}` with the error flag of §4.4 (`latency_ms` is wall-clock
and not modelled). -/
structure Answer where
  message : String
  sources : List String
  confidence : ℚ
  error_flag : Bool
  safety_flags : List GuardCategory
deriving DecidableEq, Repr

/-- Modelled from the spec: the fixed "no verified information" text of
the RetrievalEmpty degradation (§7). -/
def noVerifiedInfoText : String :=
  "I couldn't find verified information to answer that question."

/-- Modelled from the spec: the fixed fallback text returned after the
language-generation collaborator fails twice (§4.4). -/
def synthesisFallbackText : String :=
  "I'm having trouble generating a response right now. Please try again shortly."

/-- Modelled from the spec: the generic apology substituted when
`validate_output` blocks a generated answer (§4.1). -/
def outputBlockedApology : String :=
  "I'm sorry, I can't share that response."

/-- Modelled from the spec: the degraded answer for an empty context
(§7 RetrievalEmpty): fixed text, confidence 0. -/
def noContextAnswer : Answer :=
  { message := noVerifiedInfoText, sources := [], confidence := 0,
    error_flag := false, safety_flags := [] }

/-- Modelled from the spec: the confidence heuristic of §4.4 — mean
relevance score of the context passages, halved when the generated text
hedges. -/
def confidenceOf (ctx : ComposedContext) (text : String) : ℚ :=
  let n := ctx.passages.length
  let mean := if n = 0 then 0
    else ((ctx.passages.map RetrievedPassage.relevance_score).foldr (· + ·) 0) / (n : ℚ)
  if matchesLexicon ["might", "perhaps", "not sure"] text then mean / 2 else mean

/-- Modelled from the spec: `ResponseSynthesizer.synthesize` (§4.4),
returning the answer together with the number of language-generation
invocations made.  An empty context degrades to the fixed
"no verified information" answer without calling the collaborator; a
first failure is retried exactly once; a second failure yields the fixed
fallback with the error flag set — no exception propagates. -/
def synthesize (collab : Collaborators) (ctx : ComposedContext) : Answer × Nat :=
  if ctx.passages.isEmpty then (noContextAnswer, 0)
  else
    match collab.llm 0 with
    | some t =>
        ({ message := t, sources := ctx.passages.map RetrievedPassage.source_url,
           confidence := confidenceOf ctx t, error_flag := false, safety_flags := [] }, 1)
    | Option.none =>
        match collab.llm 1 with
        | some t =>
            ({ message := t, sources := ctx.passages.map RetrievedPassage.source_url,
               confidence := confidenceOf ctx t, error_flag := false, safety_flags := [] }, 2)
        | Option.none =>
            ({ message := synthesisFallbackText, sources := [], confidence := 0,
               error_flag := true, safety_flags := [] }, 2)

/-- Pipeline stages that call into retrieval or synthesis, recorded for
the short-circuit properties. -/
inductive Stage where
  | guardrails_input
  | retrieval
  | synthesis
  | guardrails_output
deriving DecidableEq, Repr

/-- Modelled from the spec: one pipeline run (§2 control flow), returning
the answer and the trace of stages executed.  A guardrail block on input
short-circuits before retrieval; an empty context degrades before
synthesis; a guardrail block on output replaces the message with the
apology. -/
def runPipeline (cfg : Config) (collab : Collaborators) (u : Utterance) :
    Answer × List Stage :=
  let v := validate_input cfg u.raw_text
  if v.allowed then
    let intent := classify cfg u false
    let ctx := retrieve cfg collab u.raw_text intent
    if ctx.passages.isEmpty then
      (noContextAnswer, [.guardrails_input, .retrieval])
    else
      let (ans, _) := synthesize collab ctx
      let vo := validate_output cfg ans.message
      let final := if vo.allowed then ans
        else { ans with message := outputBlockedApology, safety_flags := [vo.category] }
      (final, [.guardrails_input, .retrieval, .synthesis, .guardrails_output])
  else
    ({ message := safeMessage v.category, sources := [], confidence := 0,
       error_flag := false, safety_flags := [v.category] },
     [.guardrails_input])

/-- Modelled from the spec: Session `{session_id, channel, in_flight}`
(§3; `last_activity` is wall-clock and not modelled).  `in_flight` is
the concurrency gate of §5. -/
structure Session where
  session_id : String
  channel : Channel
  in_flight : Bool
deriving DecidableEq, Repr

/-- Result of submitting an utterance to the SessionCoordinator. -/
inductive SubmitResult where
  | accepted
  | rejected (msg : String)
deriving DecidableEq, Repr

/-- Modelled from the spec: the default rejection message of §4.5. -/
def stillProcessingText : String := "still processing previous message"

/-- Modelled from the spec: `SessionCoordinator` admission (§4.5) — a
session in `Processing` (`in_flight = true`) rejects a new utterance
with the default message; an idle session accepts it and enters
`Processing`. -/
def submitUtterance (s : Session) : SubmitResult × Session :=
  if s.in_flight then (.rejected stillProcessingText, s)
  else (.accepted, { s with in_flight := true })

/-- Modelled from the spec: pipeline-run completion returns the session to
`Idle` (§4.5). -/
def completeRun (s : Session) : Session :=
  { s with in_flight := false }

/-- Executable SSN-shaped prefix detector: `ddd-dd-dddd`. -/
def ssnPrefixAt : List Char → Bool
  | a :: b :: c :: d :: e :: f :: g :: h :: i :: j :: k :: _ =>
      a.isDigit && b.isDigit && c.isDigit && d == '-' && e.isDigit && f.isDigit
        && g == '-' && h.isDigit && i.isDigit && j.isDigit && k.isDigit
  | _ => false

/-- SSN pattern occurs somewhere in the character list. -/
def containsSSNChars : List Char → Bool
  | [] => false
  | s@(_ :: rest) => ssnPrefixAt s || containsSSNChars rest

/-- Modelled from the spec: the national-ID-number detector of the default
PII rule set (§4.1). -/
def containsSSN (s : String) : Bool :=
  containsSSNChars s.data

/-- Modelled from the spec: a default configured PII rule (§4.1). -/
def ssnRule : GuardRule :=
  { id := "pii_ssn", category := .pii, matchesText := containsSSN, confidence := 1 }

/-- Modelled from the spec: a default configured toxic-language rule. -/
def toxicRule : GuardRule :=
  { id := "toxic_1", category := .toxic,
    matchesText := fun t => containsSubstring t "idiot", confidence := mkRat 9 10 }

/-- Modelled from the spec: a default configured soft
financial-advice rule. -/
def finAdviceRule : GuardRule :=
  { id := "fin_advice_1", category := .financial_advice,
    matchesText := fun t => containsSubstring t "should I invest", confidence := mkRat 8 10 }

/-- Modelled from the spec: the default configuration object — the policy
knobs and defaults named in §4.1–§4.3 (top-K 5, confidence floor 0.75)
with representative rule sets and lexicons. -/
def defaultConfig : Config where
  rules := [ssnRule, toxicRule, finAdviceRule]
  soft_threshold := mkRat 1 2
  recency_keywords := ["latest", "today", "current"]
  scheduling_keywords := ["meeting", "book", "schedule", "appointment"]
  stable_topics := ["heloc"]
  product_lexicon := ["heloc", "credit card", "aven card"]
  top_k := 5
  confidence_floor := mkRat 3 4
  min_passages := 2
  token_budget := 1200

end Core

/-! ### Helper lemmas about fusion -/

theorem dedupByUrl_sublist (seen : List String) (l : List Core.RetrievedPassage) :
    List.Sublist (Core.dedupByUrl seen l) l := by
  induction l generalizing seen with
  | nil => simp [Core.dedupByUrl]
  | cons p ps ih =>
      rw [Core.dedupByUrl]
      split
      · exact (ih seen).trans (List.sublist_cons_self p ps)
      · exact (ih _).cons₂ p

theorem mem_dedupByUrl_not_seen (seen : List String) (l : List Core.RetrievedPassage)
    (q : Core.RetrievedPassage) (hq : q ∈ Core.dedupByUrl seen l) :
    q.source_url ∉ seen := by
  induction l generalizing seen with
  | nil => simp [Core.dedupByUrl] at hq
  | cons p ps ih =>
      rw [Core.dedupByUrl] at hq
      split at hq
      · exact ih seen hq
      · rcases List.mem_cons.mp hq with rfl | hq'
        · assumption
        · intro hc
          exact ih _ hq' (List.mem_cons_of_mem _ hc)

theorem dedupByUrl_pairwise (seen : List String) (l : List Core.RetrievedPassage) :
    (Core.dedupByUrl seen l).Pairwise
      (fun a b => a.source_url ≠ b.source_url) := by
  induction l generalizing seen with
  | nil => simp [Core.dedupByUrl]
  | cons p ps ih =>
      rw [Core.dedupByUrl]
      split
      · exact ih seen
      · refine List.Pairwise.cons ?_ (ih _)
        intro q hq hc
        exact mem_dedupByUrl_not_seen _ _ q hq (by simp [hc])

theorem dedupByUrl_first_wins (seen : List String) (l : List Core.RetrievedPassage)
    (hs : l.Pairwise Core.scoreGE) :
    ∀ p ∈ Core.dedupByUrl seen l, ∀ q ∈ l,
      q.source_url = p.source_url → q.relevance_score ≤ p.relevance_score := by
  induction l generalizing seen with
  | nil => simp [Core.dedupByUrl]
  | cons x xs ih =>
      rcases List.pairwise_cons.mp hs with ⟨hhead, htail⟩
      intro p hp q hq hurl
      rw [Core.dedupByUrl] at hp
      split at hp
      · rename_i hseen
        have hpnot := mem_dedupByUrl_not_seen _ _ p hp
        rcases List.mem_cons.mp hq with rfl | hq'
        · exact absurd (hurl ▸ hseen) hpnot
        · exact ih seen htail p hp q hq' hurl
      · rename_i hseen
        rcases List.mem_cons.mp hp with rfl | hp'
        · rcases List.mem_cons.mp hq with rfl | hq'
          · exact le_refl _
          · exact hhead q hq'
        · have hpnot := mem_dedupByUrl_not_seen _ _ p hp'
          rcases List.mem_cons.mp hq with rfl | hq'
          · exact absurd (by simp [hurl]) hpnot
          · exact ih _ htail p hp' q hq' hurl

theorem takeBudget_eq_take (b : Nat) (l : List Core.RetrievedPassage) :
    ∃ n, Core.takeBudget b l = l.take n := by
  induction l generalizing b with
  | nil => exact ⟨0, rfl⟩
  | cons p ps ih =>
      rw [Core.takeBudget]
      split
      · obtain ⟨n, hn⟩ := ih (b - Core.tokensOf p)
        exact ⟨n + 1, by simp [hn]⟩
      · exact ⟨0, rfl⟩

theorem takeBudget_sublist (b : Nat) (l : List Core.RetrievedPassage) :
    List.Sublist (Core.takeBudget b l) l := by
  obtain ⟨n, hn⟩ := takeBudget_eq_take b l
  rw [hn]
  exact List.take_sublist n l

theorem takeBudget_tokens_le (b : Nat) (l : List Core.RetrievedPassage) :
    Core.totalTokens (Core.takeBudget b l) ≤ b := by
  induction l generalizing b with
  | nil => simp [Core.takeBudget, Core.totalTokens]
  | cons p ps ih =>
      rw [Core.takeBudget]
      split
      · rename_i h
        have := ih (b - Core.tokensOf p)
        simp only [Core.totalTokens, List.map_cons, List.sum_cons] at this ⊢
        omega
      · simp [Core.totalTokens]

theorem fuse_pairwise (b : Nat) (l : List Core.RetrievedPassage) :
    (Core.fuse b l).Pairwise (fun a c => a.source_url ≠ c.source_url) :=
  List.Pairwise.sublist (takeBudget_sublist _ _) (dedupByUrl_pairwise _ _)

theorem fuse_sorted (b : Nat) (l : List Core.RetrievedPassage) :
    (Core.fuse b l).Sorted Core.scoreGE :=
  List.Pairwise.sublist ((takeBudget_sublist _ _).trans (dedupByUrl_sublist _ _))
    (List.sorted_insertionSort _ _)

theorem fuse_first_wins (b : Nat) (l : List Core.RetrievedPassage) :
    ∀ p ∈ Core.fuse b l, ∀ q ∈ l,
      q.source_url = p.source_url → q.relevance_score ≤ p.relevance_score := by
  intro p hp q hq hurl
  have hp' : p ∈ Core.dedupByUrl [] (Core.sortByScoreDesc l) :=
    (takeBudget_sublist _ _).subset hp
  have hq' : q ∈ Core.sortByScoreDesc l :=
    ((List.perm_insertionSort Core.scoreGE l).mem_iff).mpr hq
  exact dedupByUrl_first_wins [] _ (List.sorted_insertionSort _ _) p hp' q hq' hurl

/-! ### Claim theorems -/

/-- C7: within one session, a second utterance submitted while the first
is still processing is rejected with the default message — submitting to
an idle session accepts it and sets `in_flight`, after which any further
submission is rejected and leaves the session unchanged, so at most one
pipeline run is in flight per session. -/
theorem session_single_inflight (s : Core.Session) :
    (s.in_flight = false →
      (Core.submitUtterance s).1 = .accepted ∧
      (Core.submitUtterance s).2.in_flight = true ∧
      (Core.submitUtterance (Core.submitUtterance s).2).1 =
        .rejected Core.stillProcessingText) ∧
    (s.in_flight = true →
      (Core.submitUtterance s).1 = .rejected Core.stillProcessingText ∧
      (Core.submitUtterance s).2 = s) := by
  constructor <;> intro h <;> simp [Core.submitUtterance, h]

/-- C7 witness: a fresh text session accepts the first utterance. -/
theorem session_single_inflight_witness :
    (Core.submitUtterance ⟨"s1", Core.Channel.text, false⟩).1 = .accepted ∧
    (Core.submitUtterance
      (Core.submitUtterance ⟨"s1", Core.Channel.text, false⟩).2).1 =
        .rejected Core.stillProcessingText := by
  have h := (session_single_inflight ⟨"s1", Core.Channel.text, false⟩).1 rfl
  exact ⟨h.1, h.2.2⟩

/-- C8 counterexample: the chat request body has no field named `text`
(the utterance travels in `message`), and the response has no field named
`processing_time_ms` (the field is `processing_time`). -/
theorem chat_api_fields_counterexample :
    "text" ∉ Frontend.chatTextRequestFields ∧
    "processing_time_ms" ∉ Frontend.chatResponseFields := by
  decide

/-- C8 (amended): for every inbound chat call the request carries the
fields `session_id` and `message` (the utterance text travels in the
field named `message`, not `text`), and the response carries the fields
`message`, `sources`, `confidence` and `processing_time` (the processing
time travels in `processing_time`, not `processing_time_ms`). -/
theorem chat_api_fields_amended :
    "session_id" ∈ Frontend.chatTextRequestFields ∧
    "message" ∈ Frontend.chatTextRequestFields ∧
    "message" ∈ Frontend.chatResponseFields ∧
    "sources" ∈ Frontend.chatResponseFields ∧
    "confidence" ∈ Frontend.chatResponseFields ∧
    "processing_time" ∈ Frontend.chatResponseFields := by
  decide

/-- C10: `updateMessage` preserves the length and order of the message
list; position by position it merges the stored message with the updates
exactly when its id matches and leaves it unchanged otherwise; and when
no stored message has the given id, the whole state is unchanged. -/
theorem chatStore_updateMessage_frame (s : Frontend.ChatState) (mid : String)
    (u : Frontend.MessageUpdate) :
    (Frontend.updateMessage s mid u).messages.length = s.messages.length ∧
    (∀ i : Nat, (Frontend.updateMessage s mid u).messages[i]? =
      (s.messages[i]?).map fun m =>
        if m.id = mid then Frontend.mergeMessage m u else m) ∧
    ((∀ m ∈ s.messages, m.id ≠ mid) → Frontend.updateMessage s mid u = s) := by
  refine ⟨?_, ?_, ?_⟩
  · simp [Frontend.updateMessage]
  · intro i
    simp [Frontend.updateMessage]
  · intro h
    have hmap : s.messages.map
        (fun msg => if msg.id = mid then Frontend.mergeMessage msg u else msg) =
        s.messages := by
      rw [List.map_congr_left (g := id) fun a ha => by simp [h a ha]]
      exact List.map_id _
    simp [Frontend.updateMessage, hmap]

/-- C10 witness: at a concrete two-message state, updating the first
message's status keeps the length at 2, merges only the matching
message, and an update aimed at an absent id leaves the state
unchanged. -/
theorem chatStore_updateMessage_frame_witness :
    (Frontend.updateMessage
      ⟨[⟨"1", "hi", .user, "t0", .sending, none⟩,
        ⟨"2", "yo", .assistant, "t1", .sent, none⟩],
        false, none, none, false, none⟩ "1"
      { status := some .sent }).messages.length = 2 ∧
    Frontend.updateMessage
      ⟨[⟨"1", "hi", .user, "t0", .sending, none⟩,
        ⟨"2", "yo", .assistant, "t1", .sent, none⟩],
        false, none, none, false, none⟩ "9"
      { status := some .sent } =
      ⟨[⟨"1", "hi", .user, "t0", .sending, none⟩,
        ⟨"2", "yo", .assistant, "t1", .sent, none⟩],
        false, none, none, false, none⟩ := by
  constructor
  · exact (chatStore_updateMessage_frame
      ⟨[⟨"1", "hi", .user, "t0", .sending, none⟩,
        ⟨"2", "yo", .assistant, "t1", .sent, none⟩],
        false, none, none, false, none⟩ "1" { status := some .sent }).1
  · exact (chatStore_updateMessage_frame
      ⟨[⟨"1", "hi", .user, "t0", .sending, none⟩,
        ⟨"2", "yo", .assistant, "t1", .sent, none⟩],
        false, none, none, false, none⟩ "9" { status := some .sent }).2.2
      (by decide)

/-- C9: `chatStore.sendMessage` is a total state transition (no exception
reaches the caller).  When the backend call fails it appends no
assistant message, marks the just-added user message `error`, and sets
the store error to the fixed text; when the call succeeds but the answer
is JS-falsy (absent or empty) the appended assistant message carries the
fixed fallback text. -/
theorem chatStore_sendMessage_safe (s : Frontend.ChatState)
    (content uid uts aid ats : String)
    (hfresh : ∀ m ∈ s.messages, m.id ≠ uid) :
    ((Frontend.sendMessage s content uid uts aid ats .fail).messages =
        s.messages ++ [⟨uid, content, .user, uts, .error, none⟩] ∧
      (Frontend.sendMessage s content uid uts aid ats .fail).error =
        some Frontend.sendFailureError) ∧
    (∀ answer : Option String, answer = none ∨ answer = some "" →
      (Frontend.sendMessage s content uid uts aid ats (.ok answer)).messages =
        s.messages ++ [⟨uid, content, .user, uts, .sent, none⟩,
          ⟨aid, Frontend.noAnswerFallback, .assistant, ats, .sent, none⟩]) := by
  have hmap : ∀ f : Frontend.Message → Frontend.Message, s.messages.map
      (fun msg => if msg.id = uid then f msg else msg) = s.messages := by
    intro f
    rw [List.map_congr_left (g := id) fun a ha => by simp [hfresh a ha]]
    exact List.map_id _
  refine ⟨⟨?_, ?_⟩, ?_⟩
  · simp [Frontend.sendMessage, Frontend.addMessage, Frontend.clearError,
      Frontend.setError, Frontend.updateMessage, Frontend.mergeMessage, hmap]
  · simp [Frontend.sendMessage, Frontend.addMessage, Frontend.clearError,
      Frontend.setError, Frontend.updateMessage, hmap]
  · rintro answer (rfl | rfl) <;>
      simp [Frontend.sendMessage, Frontend.addMessage, Frontend.clearError,
        Frontend.setError, Frontend.updateMessage, Frontend.mergeMessage,
        Frontend.jsOr, hmap]

/-- C9 witness: from the empty store, a failing backend call leaves one
errored user message and the fixed store error; a succeeding call with an
empty answer appends the fixed fallback assistant message. -/
theorem chatStore_sendMessage_safe_witness :
    (Frontend.sendMessage ⟨[], false, none, none, false, none⟩
        "hi" "1" "t0" "2" "t1" .fail).messages =
      [⟨"1", "hi", .user, "t0", .error, none⟩] ∧
    (Frontend.sendMessage ⟨[], false, none, none, false, none⟩
        "hi" "1" "t0" "2" "t1" (.ok none)).messages =
      [⟨"1", "hi", .user, "t0", .sent, none⟩,
       ⟨"2", Frontend.noAnswerFallback, .assistant, "t1", .sent, none⟩] := by
  have h := chatStore_sendMessage_safe ⟨[], false, none, none, false, none⟩
    "hi" "1" "t0" "2" "t1" (by simp)
  exact ⟨h.1.1, h.2 none (Or.inl rfl)⟩

/-- C6 counterexample: the utterance "schedule a meeting about the latest
rates" contains the recency keyword "latest", yet under the analyzer's
priority order it classifies as `scheduling`, for which
`requires_live_search` is false. -/
theorem classify_recency_counterexample :
    containsSubstring "schedule a meeting about the latest rates" "latest" = true ∧
    "latest" ∈ Core.defaultConfig.recency_keywords ∧
    (Core.classify Core.defaultConfig
      ⟨"s1", Core.Channel.text, "schedule a meeting about the latest rates"⟩
      false).requires_live_search = false := by
  decide

/-- C6 (amended): "latest", "today" and "current" are configured recency
keywords, and every utterance containing a configured recency keyword
that is not blocked upstream and matches no scheduling keyword is
classified with `requires_live_search = true`. -/
theorem classify_recency_amended :
    (∀ kw ∈ ["latest", "today", "current"], kw ∈ Core.defaultConfig.recency_keywords) ∧
    ∀ (cfg : Core.Config) (u : Core.Utterance),
      Core.matchesLexicon cfg.recency_keywords u.raw_text = true →
      Core.matchesLexicon cfg.scheduling_keywords u.raw_text = false →
      (Core.classify cfg u false).requires_live_search = true := by
  refine ⟨by decide, ?_⟩
  intro cfg u hrec hsched
  simp [Core.classify, hrec, hsched]

/-- C6 witness: "what is the latest heloc rate" contains a recency keyword
and no scheduling keyword, so it requires live search. -/
theorem classify_recency_amended_witness :
    (Core.classify Core.defaultConfig
      ⟨"s1", Core.Channel.text, "what is the latest heloc rate"⟩
      false).requires_live_search = true :=
  classify_recency_amended.2 Core.defaultConfig
    ⟨"s1", Core.Channel.text, "what is the latest heloc rate"⟩
    (by decide) (by decide)

/-- C5: for a synthesis request with a nonempty context, the synthesizer
invokes the language-generation collaborator at most twice, exactly once
when the first attempt succeeds, and exactly twice when the first fails
(one retry); if the second attempt also fails, the returned Answer
carries the fixed fallback text with the error flag set — `synthesize`
is a total function, so no exception reaches the caller. -/
theorem synthesize_retry_fallback (collab : Core.Collaborators)
    (ctx : Core.ComposedContext) (hne : ctx.passages ≠ []) :
    ((Core.synthesize collab ctx).2 ≤ 2) ∧
    (∀ t, collab.llm 0 = some t → (Core.synthesize collab ctx).2 = 1) ∧
    (collab.llm 0 = none → (Core.synthesize collab ctx).2 = 2) ∧
    (collab.llm 0 = none → collab.llm 1 = none →
      (Core.synthesize collab ctx).1.message = Core.synthesisFallbackText ∧
      (Core.synthesize collab ctx).1.error_flag = true) := by
  have hE : ctx.passages.isEmpty = false := by
    simpa [List.isEmpty_iff] using hne
  refine ⟨?_, ?_, ?_, ?_⟩
  · rw [Core.synthesize, hE]
    cases h0 : collab.llm 0 with
    | some t => simp
    | none => cases h1 : collab.llm 1 <;> simp
  · intro t ht
    rw [Core.synthesize, hE]
    simp [ht]
  · intro h0
    rw [Core.synthesize, hE]
    cases h1 : collab.llm 1 <;> simp [h0, h1]
  · intro h0 h1
    rw [Core.synthesize, hE]
    simp [h0, h1]

/-- C5 witness: with a collaborator that fails on every attempt and a
one-passage context, the synthesizer makes two calls and returns the
fixed fallback with the error flag. -/
theorem synthesize_retry_fallback_witness :
    (Core.synthesize ⟨fun _ => .err, fun _ => .err, fun _ => none⟩
        ⟨[⟨"c", "u", 1, .knowledge_base⟩], false⟩).2 = 2 ∧
    (Core.synthesize ⟨fun _ => .err, fun _ => .err, fun _ => none⟩
        ⟨[⟨"c", "u", 1, .knowledge_base⟩], false⟩).1.message =
      Core.synthesisFallbackText ∧
    (Core.synthesize ⟨fun _ => .err, fun _ => .err, fun _ => none⟩
        ⟨[⟨"c", "u", 1, .knowledge_base⟩], false⟩).1.error_flag = true := by
  have h := synthesize_retry_fallback
    ⟨fun _ => .err, fun _ => .err, fun _ => none⟩
    ⟨[⟨"c", "u", 1, .knowledge_base⟩], false⟩ (by simp)
  exact ⟨h.2.2.1 rfl, (h.2.2.2 rfl rfl).1, (h.2.2.2 rfl rfl).2⟩

/-- C4: when the guardrails admit the utterance but both the
knowledge-base and the live-search collaborator return empty or error,
the pipeline's Answer carries the fixed "no verified information" text
with confidence 0. -/
theorem pipeline_no_verified_info (cfg : Core.Config) (collab : Core.Collaborators)
    (u : Core.Utterance)
    (hallow : (Core.validate_input cfg u.raw_text).allowed = true)
    (hkb : Core.passagesOf (collab.kb u.raw_text) = [])
    (hlive : Core.passagesOf (collab.live u.raw_text) = []) :
    (Core.runPipeline cfg collab u).1.message = Core.noVerifiedInfoText ∧
    (Core.runPipeline cfg collab u).1.confidence = 0 := by
  have hctx : ∀ intent, (Core.retrieve cfg collab u.raw_text intent).passages = [] := by
    intro intent
    simp [Core.retrieve, Core.fuse, Core.kbCandidates, Core.liveCandidates,
      hkb, hlive, Core.sortByScoreDesc, Core.dedupByUrl, Core.takeBudget,
      List.insertionSort]
  constructor <;>
    simp [Core.runPipeline, hallow, hctx, Core.noContextAnswer]

/-- C4 witness: an admitted utterance with an empty knowledge base and an
erroring live search yields the fixed no-information answer with
confidence 0. -/
theorem pipeline_no_verified_info_witness :
    (Core.runPipeline Core.defaultConfig
        ⟨fun _ => .ok [], fun _ => .err, fun _ => some "hello"⟩
        ⟨"s1", Core.Channel.text, "tell me about aven"⟩).1.message =
      Core.noVerifiedInfoText ∧
    (Core.runPipeline Core.defaultConfig
        ⟨fun _ => .ok [], fun _ => .err, fun _ => some "hello"⟩
        ⟨"s1", Core.Channel.text, "tell me about aven"⟩).1.confidence = 0 := by
  have h := pipeline_no_verified_info Core.defaultConfig
    ⟨fun _ => .ok [], fun _ => .err, fun _ => some "hello"⟩
    ⟨"s1", Core.Channel.text, "tell me about aven"⟩
    (by decide) rfl rfl
  exact h

/-- C1: an input matching a configured PII rule yields a verdict with
`allowed = false` and `category = pii`, and the pipeline run
short-circuits with the PII-specific safe message: its stage trace
records no retrieval call and no synthesis call. -/
theorem guardrails_pii_short_circuit (cfg : Core.Config)
    (collab : Core.Collaborators) (u : Core.Utterance)
    (h : ∃ r ∈ cfg.rules, r.category = .pii ∧ r.matchesText u.raw_text = true) :
    (Core.validate_input cfg u.raw_text).allowed = false ∧
    (Core.validate_input cfg u.raw_text).category = .pii ∧
    (Core.runPipeline cfg collab u).1.message = Core.safeMessage .pii ∧
    Core.Stage.retrieval ∉ (Core.runPipeline cfg collab u).2 ∧
    Core.Stage.synthesis ∉ (Core.runPipeline cfg collab u).2 := by
  obtain ⟨r, hr, hcat, hm⟩ := h
  have hfind : (Core.findMatch cfg u.raw_text .pii).isSome := by
    rw [Core.findMatch, List.find?_isSome]
    exact ⟨r, hr, by simp [hcat, hm]⟩
  obtain ⟨r', hr'⟩ := Option.isSome_iff_exists.mp hfind
  have hv : Core.validate_input cfg u.raw_text =
      ⟨false, .pii, some r'.id, .high⟩ := by
    simp [Core.validate_input, hr']
  refine ⟨by simp [hv], by simp [hv], ?_, ?_, ?_⟩ <;>
    simp [Core.runPipeline, hv]

/-- C1 witness: the Scenario-B utterance containing an SSN matches the
default PII rule; the verdict blocks with category `pii` and the run's
trace holds no retrieval stage. -/
theorem guardrails_pii_short_circuit_witness :
    (Core.validate_input Core.defaultConfig
      "My SSN is 123-45-6789, what is my balance?").allowed = false ∧
    (Core.validate_input Core.defaultConfig
      "My SSN is 123-45-6789, what is my balance?").category = .pii ∧
    Core.Stage.retrieval ∉
      (Core.runPipeline Core.defaultConfig
        ⟨fun _ => .ok [], fun _ => .err, fun _ => some "hello"⟩
        ⟨"s1", Core.Channel.text, "My SSN is 123-45-6789, what is my balance?"⟩).2 := by
  have h := guardrails_pii_short_circuit Core.defaultConfig
    ⟨fun _ => .ok [], fun _ => .err, fun _ => some "hello"⟩
    ⟨"s1", Core.Channel.text, "My SSN is 123-45-6789, what is my balance?"⟩
    ⟨Core.ssnRule, by simp [Core.defaultConfig], rfl, by decide⟩
  exact ⟨h.1, h.2.1, h.2.2.2.1⟩

/-- C2: the ComposedContext returned by `retrieve` contains no two
passages with the same `source_url`, its passages are sorted in
descending order of `relevance_score`, and every kept passage's score is
at least that of any fetched candidate sharing its URL (the first
occurrence by score wins a duplicate URL). -/
theorem retrieve_dedup_sorted (cfg : Core.Config) (collab : Core.Collaborators)
    (query : String) (intent : Core.QueryIntent) :
    (Core.retrieve cfg collab query intent).passages.Pairwise
        (fun a b => a.source_url ≠ b.source_url) ∧
    (Core.retrieve cfg collab query intent).passages.Sorted Core.scoreGE ∧
    (∀ p ∈ (Core.retrieve cfg collab query intent).passages,
      ∀ q ∈ Core.kbCandidates cfg collab query ++
          Core.liveCandidates cfg collab query intent,
        q.source_url = p.source_url → q.relevance_score ≤ p.relevance_score) :=
  ⟨fuse_pairwise _ _, fuse_sorted _ _, fuse_first_wins _ _⟩

/-- C2 witness: with two knowledge-base candidates sharing a URL, the kept
passage is the higher-scored one, so the lower-scored duplicate's score
is bounded by it. -/
theorem retrieve_dedup_sorted_witness :
    (⟨"bb", "u1", mkRat 1 2, .knowledge_base⟩ :
        Core.RetrievedPassage).relevance_score ≤
      (⟨"a", "u1", mkRat 9 10, .knowledge_base⟩ :
        Core.RetrievedPassage).relevance_score := by
  have h := (retrieve_dedup_sorted Core.defaultConfig
    ⟨fun _ => .ok [⟨"a", "u1", mkRat 9 10, .knowledge_base⟩,
                   ⟨"bb", "u1", mkRat 1 2, .knowledge_base⟩],
     fun _ => .err, fun _ => none⟩
    "q" ⟨.general_info, false, []⟩).2.2
  exact h ⟨"a", "u1", mkRat 9 10, .knowledge_base⟩ (by decide)
    ⟨"bb", "u1", mkRat 1 2, .knowledge_base⟩ (by decide) rfl

/-- C3: the total token count of the ComposedContext returned by
`retrieve` never exceeds the configured budget, and the truncation keeps
a prefix of the deduplicated descending-sorted candidate list — so the
lowest-ranked passages are the ones dropped. -/
theorem retrieve_token_budget (cfg : Core.Config) (collab : Core.Collaborators)
    (query : String) (intent : Core.QueryIntent) :
    Core.totalTokens (Core.retrieve cfg collab query intent).passages ≤
        cfg.token_budget ∧
    ∃ n, (Core.retrieve cfg collab query intent).passages =
      (Core.dedupByUrl [] (Core.sortByScoreDesc
        (Core.kbCandidates cfg collab query ++
          Core.liveCandidates cfg collab query intent))).take n :=
  ⟨takeBudget_tokens_le _ _, takeBudget_eq_take _ _⟩
